import Mathlib

/-!
# A shallow embedding of the socgo job scheduler and provider service

This file embeds, in Lean 4, the core of the socgo repository: the data
model (`internal/database`), the provider factory (`internal/providers/registry.go`),
the provider service (`ProviderService` in the providers package), the
facebook/instagram/tiktok token-refresh capabilities, and the scheduler poll tick
(`internal/scheduler/scheduler.go`).  Time instants (Go `time.Time`) are
modelled as `Int` Unix seconds; `time.Time.Unix` and `time.Unix` then become
the identity, which is exact at second granularity.  The per-tenant GORM
store is modelled as an explicit `Store` value whose reads and writes
succeed; HTTP exchanges are modelled by explicit outcome parameters
(transport error, or status code plus parsed body).  The JSON
(de)serialization of the stored credential `Config` string is modelled by
storing the structured record directly (the `json.Marshal`/`Unmarshal`
round-trip on these structs).  `CreatedAt`/`UpdatedAt` bookkeeping fields
are not modelled.
-/

namespace SocGo

namespace Database

/-- Job status constants from `internal/database` (Go string constants). -/
def JobStatusPending : String := "pending"

def JobStatusExecuting : String := "executing"

def JobStatusCompleted : String := "completed"

def JobStatusFailed : String := "failed"

/-- `oauth.UserInfo` from `internal/oauth/types.go`. -/
structure UserInfo where
  id : String
  name : String
  username : String
  email : String
  avatar : String
deriving Repr, DecidableEq

/-- `oauth.ProviderConfig` from `internal/oauth/types.go`: the structured form
of the JSON credential stored in `database.Provider.Config`.  `ExpiresAt` is
a `time.Time`, modelled as Unix seconds. -/
structure OAuthConfig where
  accessToken : String
  refreshToken : String
  tokenType : String
  expiresAt : Int
  scope : String
  userInfo : Option UserInfo
deriving Repr, DecidableEq

/-- `database.Provider`: a stored credential record (per tenant, per named
instance).  `config` holds the parsed form of the JSON `Config` column. -/
structure Provider where
  id : Nat
  name : String
  type : String
  config : OAuthConfig
  userID : String
  isActive : Bool
deriving Repr, DecidableEq

/-- `database.ScheduledJob` (without the GORM bookkeeping timestamps).  The
`Provider` association is not stored on the row; it is resolved by
`Preload("Provider")` at query time, see `Scheduler.preloadedProviderName`. -/
structure ScheduledJob where
  id : Nat
  jobType : String
  payloadData : String
  userID : String
  providerID : Nat
  scheduledAt : Int
  executedAt : Option Int
  status : String
  errorMsg : String
deriving Repr, DecidableEq

/-- `database.Post` (the fields written by the scheduler). -/
structure Post where
  content : String
  userID : String
  providerID : Nat
deriving Repr, DecidableEq

/-- One tenant's isolated store (the per-user SQLite database).  `journal`
records each persisted `(job id, status)` write performed through
`db.Save(job)`, in order — it is the observation of the status-write trace
and carries no other semantics. -/
structure Store where
  providers : List Provider
  jobs : List ScheduledJob
  posts : List Post
  journal : List (Nat × String)
deriving Repr, DecidableEq

/-- `db.Save(job)`: update the row with the job's primary key.  All rows
with the same id are overwritten (ids are unique in the actual database).
The status write is recorded in the journal. -/
def Store.saveJob (s : Store) (j : ScheduledJob) : Store :=
  { s with
    jobs := s.jobs.map fun k => if k.id = j.id then j else k
    journal := s.journal ++ [(j.id, j.status)] }

/-- `db.Save(&dbProvider)`: update the credential row with its primary key. -/
def Store.saveProvider (s : Store) (p : Provider) : Store :=
  { s with providers := s.providers.map fun q => if q.id = p.id then p else q }

/-- `db.Create(&post)`: append a post record. -/
def Store.createPost (s : Store) (p : Post) : Store :=
  { s with posts := s.posts ++ [p] }

/-- Read the job row with the given primary key. -/
def Store.findJob (s : Store) (i : Nat) : Option ScheduledJob :=
  s.jobs.find? fun k => k.id == i

/-- The `Where("user_id = ? AND name = ? AND is_active = ?", userID, name, true).First`
credential query used by the provider service. -/
def Store.findActiveProvider (s : Store) (userID name : String) : Option Provider :=
  s.providers.find? fun p => p.userID == userID && p.name == name && p.isActive

end Database

namespace Providers

open Database

/-- Provider type tags from `internal/providers/registry.go`. -/
def ProviderTypeTikTok : String := "tiktok"

def ProviderTypeInstagram : String := "instagram"

def ProviderTypeFacebook : String := "facebook"

/-- `providers.ProviderConfig`: the in-memory credential a capability
instance is bound to.  `expiresAt` is a Unix-seconds instant (the Go field
is `int64`). -/
structure ProviderConfig where
  accessToken : String
  refreshToken : String
  tokenType : String
  expiresAt : Int
  scope : String
  userID : String
deriving Repr, DecidableEq

/-- The closed set of capability implementations produced by the factory in
`registry.go` (`TikTokProvider`, `InstagramProvider`, `FacebookProvider`),
each holding the bound credential.  The factory constructors store the
config and the HTTP client and do nothing else. -/
inductive Provider where
  | tiktok (config : ProviderConfig)
  | instagram (config : ProviderConfig)
  | facebook (config : ProviderConfig)
deriving Repr, DecidableEq

/-- `ProviderFactory.CreateProvider` from `registry.go`: a switch on the
type tag; unknown tags produce `unsupported provider type: %s`.  It is a
pure total function of the tag and the config — no network I/O occurs at
construction time. -/
def CreateProvider (providerType : String) (config : ProviderConfig) :
    Except String Provider :=
  if providerType = ProviderTypeTikTok then .ok (.tiktok config)
  else if providerType = ProviderTypeInstagram then .ok (.instagram config)
  else if providerType = ProviderTypeFacebook then .ok (.facebook config)
  else .error ("unsupported provider type: " ++ providerType)

/-- Parsed body of a token-refresh HTTP response (the anonymous response
struct decoded in `RefreshToken`): `access_token`, `token_type`,
`expires_in`, and the error payload fields. -/
structure TokenResponseBody where
  accessToken : String
  tokenType : String
  expiresIn : Int
  errMessage : String
  errType : String
  errCode : Int
deriving Repr, DecidableEq

/-- Outcome of one HTTP exchange as seen by the provider code: a transport
error from `httpClient.Do`, or a status code together with the body, where
decoding the body may itself fail (`json.NewDecoder(...).Decode`). -/
inductive HTTPResult (β : Type) where
  | transportError (msg : String)
  | response (status : Nat) (body : Except String β)
deriving Repr

/-- `FacebookProvider.RefreshToken` from
`internal/providers/facebook/provider.go` (lines 156–228).  In Go the
method mutates `p.config` in place and returns `error`; here the updated
credential is returned explicitly.  `now` is the current instant
(`time.Now()`); the marshalling of the constant request payload and the
construction of the request cannot fail and are not modelled. -/
def FacebookRefreshToken (config : ProviderConfig)
    (net : HTTPResult TokenResponseBody) (now : Int) :
    Except String ProviderConfig :=
  if config.refreshToken = "" then .error "no refresh token available"
  else
    match net with
    | .transportError msg => .error ("failed to make request: " ++ msg)
    | .response status body =>
      if status ≠ 200 then
        .error ("token refresh failed with status: " ++ toString status)
      else
        match body with
        | .error msg => .error ("failed to decode response: " ++ msg)
        | .ok r =>
          if r.errMessage ≠ "" then
            .error ("Facebook API error: " ++ r.errMessage ++ " (type: " ++
              r.errType ++ ", code: " ++ toString r.errCode ++ ")")
          else if r.accessToken ≠ "" then
            .ok { config with
                    accessToken := r.accessToken
                    tokenType := r.tokenType
                    expiresAt := now + r.expiresIn }
          else .ok config

/-- `InstagramProvider.RefreshToken` from
`internal/providers/instagram_provider.go` (lines 144–213): identical
decision structure to the facebook variant, differing only in the API-error
message prefix. -/
def InstagramRefreshToken (config : ProviderConfig)
    (net : HTTPResult TokenResponseBody) (now : Int) :
    Except String ProviderConfig :=
  if config.refreshToken = "" then .error "no refresh token available"
  else
    match net with
    | .transportError msg => .error ("failed to make request: " ++ msg)
    | .response status body =>
      if status ≠ 200 then
        .error ("token refresh failed with status: " ++ toString status)
      else
        match body with
        | .error msg => .error ("failed to decode response: " ++ msg)
        | .ok r =>
          if r.errMessage ≠ "" then
            .error ("Instagram API error: " ++ r.errMessage ++ " (type: " ++
              r.errType ++ ", code: " ++ toString r.errCode ++ ")")
          else if r.accessToken ≠ "" then
            .ok { config with
                    accessToken := r.accessToken
                    tokenType := r.tokenType
                    expiresAt := now + r.expiresIn }
          else .ok config

/-- Parsed body of the TikTok token-refresh HTTP response (the anonymous
response struct decoded in `TikTokProvider.RefreshToken`,
`src/unnamed/part_009`): a `data` object with `access_token`,
`refresh_token` and `expires_in`, and an error payload with a string `code`
and a `message`. -/
structure TikTokTokenResponseBody where
  accessToken : String
  refreshToken : String
  expiresIn : Int
  errCode : String
  errMessage : String
deriving Repr, DecidableEq

/-- `TikTokProvider.RefreshToken` from `src/unnamed/part_009` (lines
151–223).  Unlike the facebook/instagram variants, the API error is keyed
on the string `Error.Code`, and a successful exchange with a non-empty
`data.access_token` updates the bound credential's access token, refresh
token and expiry in place — the token type is not touched. -/
def TikTokRefreshToken (config : ProviderConfig)
    (net : HTTPResult TikTokTokenResponseBody) (now : Int) :
    Except String ProviderConfig :=
  if config.refreshToken = "" then .error "no refresh token available"
  else
    match net with
    | .transportError msg => .error ("failed to make request: " ++ msg)
    | .response status body =>
      if status ≠ 200 then
        .error ("token refresh failed with status: " ++ toString status)
      else
        match body with
        | .error msg => .error ("failed to decode response: " ++ msg)
        | .ok r =>
          if r.errCode ≠ "" then
            .error ("TikTok API error: " ++ r.errCode ++ " - " ++ r.errMessage)
          else if r.accessToken ≠ "" then
            .ok { config with
                    accessToken := r.accessToken
                    refreshToken := r.refreshToken
                    expiresAt := now + r.expiresIn }
          else .ok config

/-- The ambient network behavior for one token-refresh call: the outcome of
the Graph-API-shaped exchange (the facebook/instagram wire format) and of
the TikTok-shaped exchange.  A constructed provider performs exactly one of
the two. -/
structure RefreshNet where
  graph : HTTPResult TokenResponseBody
  tiktok : HTTPResult TikTokTokenResponseBody

/-- Dynamic dispatch of `provider.RefreshToken(ctx)` over the capability
instance produced by the factory. -/
def Provider.refreshToken : Provider → RefreshNet → Int →
    Except String ProviderConfig
  | .tiktok c, net, now => TikTokRefreshToken c net.tiktok now
  | .instagram c, net, now => InstagramRefreshToken c net.graph now
  | .facebook c, net, now => FacebookRefreshToken c net.graph now

/-! ## Provider service

`ProviderService` methods.  `dbManager.GetDB(userID)` returning the tenant's
store is modelled by passing the `Store` explicitly (store access is assumed
to succeed).  The `gorm.ErrRecordNotFound` error text is `record not found`. -/

/-- `ProviderService.getProviderConfig`: resolve the active credential by
(tenant, name) and convert the stored `oauth.ProviderConfig` into a
`providers.ProviderConfig`.  `ExpiresAt.Unix()` is the identity on
Unix-second instants.  The stored JSON is structured, so unmarshalling
succeeds. -/
def getProviderConfig (s : Store) (userID providerName : String) :
    Except String ProviderConfig :=
  match s.findActiveProvider userID providerName with
  | none => .error "provider not found: record not found"
  | some dbProvider =>
    let oc := dbProvider.config
    let base : ProviderConfig :=
      { accessToken := oc.accessToken
        refreshToken := oc.refreshToken
        tokenType := oc.tokenType
        expiresAt := oc.expiresAt
        scope := oc.scope
        userID := userID }
    match oc.userInfo with
    | some ui => .ok { base with userID := ui.id }
    | none => .ok base

/-- `ProviderService.updateProviderConfig`: re-read the active credential
record, overwrite its token fields from the (mutated) in-memory config,
re-serialize and save (`time.Unix(config.ExpiresAt, 0)` is the identity on
Unix-second instants). -/
def updateProviderConfig (s : Store) (userID providerName : String)
    (config : ProviderConfig) : Except String Store :=
  match s.findActiveProvider userID providerName with
  | none => .error "provider not found: record not found"
  | some dbProvider =>
    let updated : OAuthConfig :=
      { dbProvider.config with
          accessToken := config.accessToken
          refreshToken := config.refreshToken
          tokenType := config.tokenType
          expiresAt := config.expiresAt
          scope := config.scope }
    .ok (s.saveProvider { dbProvider with config := updated })

/-- `ProviderService.PublishContent`.  Note `providerType :=
ProviderType(providerName)`: a string cast, so the factory receives the
credential NAME, not its stored `Type` field.  `publishOutcome` is the
result of the constructed provider's `Publish` HTTP exchange against the
(mocked) external platform. -/
def PublishContent (s : Store) (userID providerName content : String)
    (publishOutcome : Except String String) : Except String String :=
  match getProviderConfig s userID providerName with
  | .error e => .error ("failed to get provider config: " ++ e)
  | .ok config =>
    match CreateProvider providerName config with
    | .error e => .error ("failed to create provider: " ++ e)
    | .ok _provider =>
      match publishOutcome with
      | .error e => .error ("failed to publish content: " ++ e)
      | .ok postID => .ok postID

/-- `ProviderService.GetPostStatus`: same resolution as `PublishContent`,
delegating to the provider's `GetStatus` HTTP exchange. -/
def GetPostStatus (s : Store) (userID providerName postID : String)
    (statusOutcome : Except String String) : Except String String :=
  match getProviderConfig s userID providerName with
  | .error e => .error ("failed to get provider config: " ++ e)
  | .ok config =>
    match CreateProvider providerName config with
    | .error e => .error ("failed to create provider: " ++ e)
    | .ok _provider =>
      match statusOutcome with
      | .error e => .error ("failed to get post status: " ++ e)
      | .ok st => .ok st

/-- `ProviderService.RefreshProviderToken`: resolve the credential, build
the provider, run its `RefreshToken`, then persist the mutated credential
back via `updateProviderConfig`.  Returns the updated store. -/
def RefreshProviderToken (s : Store) (userID providerName : String)
    (net : RefreshNet) (now : Int) : Except String Store :=
  match getProviderConfig s userID providerName with
  | .error e => .error ("failed to get provider config: " ++ e)
  | .ok config =>
    match CreateProvider providerName config with
    | .error e => .error ("failed to create provider: " ++ e)
    | .ok provider =>
      match provider.refreshToken net now with
      | .error e => .error ("failed to refresh token: " ++ e)
      | .ok config2 =>
        match updateProviderConfig s userID providerName config2 with
        | .error e => .error ("failed to update provider config: " ++ e)
        | .ok s2 => .ok s2

/-- `ProviderService.IsProviderConfigured`: existence + active-flag check;
any query failure (in particular "not found") yields `(false, nil)`.  The
returned pair is (result, error). -/
def IsProviderConfigured (s : Store) (userID providerName : String) :
    Bool × Option String :=
  match s.findActiveProvider userID providerName with
  | none => (false, none)
  | some _ => (true, none)

end Providers

namespace Scheduler

open Database Providers

/-- The `Preload("Provider")` association on a queried job: the provider
row referenced by `job.ProviderID`, or the zero value (empty name) when no
row matches. -/
def preloadedProviderName (s : Store) (j : ScheduledJob) : String :=
  match s.providers.find? (fun p => p.id == j.providerID) with
  | some p => p.name
  | none => ""

/-- The due-jobs query of `processUserJobs`:
`Where("status = ? AND scheduled_at <= ?", JobStatusPending, now)`. -/
def dueJobs (s : Store) (now : Int) : List ScheduledJob :=
  s.jobs.filter fun j => j.status == JobStatusPending && decide (j.scheduledAt ≤ now)

/-- `Scheduler.markJobFailed`: set status failed, record the error message,
save. -/
def markJobFailed (s : Store) (j : ScheduledJob) (errorMsg : String) : Store :=
  s.saveJob { j with status := JobStatusFailed, errorMsg := errorMsg }

/-- `Scheduler.processPublishPostJob`.  `providerName` is the preloaded
`job.Provider.Name`; `pub` is the outcome of the provider's publish HTTP
exchange for this job.  A failure to create the post record is logged and
processing continues (the model's store writes succeed). -/
def processPublishPostJob (s : Store) (userID : String) (j : ScheduledJob)
    (providerName : String) (pub : Except String String) (now : Int) : Store :=
  if providerName = "" then
    markJobFailed s j "Provider name not found"
  else
    match PublishContent s userID providerName j.payloadData pub with
    | .error e => markJobFailed s j ("Failed to publish content: " ++ e)
    | .ok _postID =>
      let s1 := s.createPost
        { content := j.payloadData, userID := userID, providerID := j.providerID }
      s1.saveJob { j with status := JobStatusCompleted, executedAt := some now }

/-- `Scheduler.processJob`: persist the `executing` status immediately,
then dispatch by `job_type` (only `publish_post` is defined; anything else
is marked failed without a dispatch attempt).  Under the
store-writes-succeed assumption every `error` return of the Go function is
`nil`, and the caller only logs it, so only the store is returned. -/
def processJob (s : Store) (userID : String) (j : ScheduledJob)
    (providerName : String) (pub : Except String String) (now : Int) : Store :=
  let jExec := { j with status := JobStatusExecuting }
  let s1 := s.saveJob jExec
  if j.jobType = "publish_post" then
    processPublishPostJob s1 userID jExec providerName pub now
  else
    markJobFailed s1 jExec ("Unknown job type: " ++ j.jobType)

/-- `Scheduler.processUserJobs`: query the due jobs once (a snapshot, with
the provider association preloaded from the same snapshot), then process
each in order; a per-job error is logged and the loop continues.  `net`
gives, per job id, the outcome of that job's publish exchange. -/
def processUserJobs (userID : String) (s : Store) (now : Int)
    (net : Nat → Except String String) : Store :=
  (dueJobs s now).foldl
    (fun acc j => processJob acc userID j (preloadedProviderName s j) (net j.id) now) s

/-- `Scheduler.processJobs`: one poll tick over all currently-open tenant
stores; a per-tenant error is logged and the loop continues. -/
def processJobs (tenants : List (String × Store)) (now : Int)
    (net : String → Nat → Except String String) : List (String × Store) :=
  tenants.map fun t => (t.1, processUserJobs t.1 t.2 now (net t.1))

end Scheduler

/-! ## Helper lemmas: row updates and primary-key reads -/

namespace Database

theorem find?_replace_ne (L : List ScheduledJob) (j : ScheduledJob) (i : Nat)
    (h : i ≠ j.id) :
    (L.map fun k => if k.id = j.id then j else k).find? (fun k => k.id == i)
      = L.find? (fun k => k.id == i) := by
  induction L with
  | nil => rfl
  | cons a tl ih =>
    by_cases ha : a.id = j.id
    · rw [List.map_cons, if_pos ha,
        List.find?_cons_of_neg _ (by simp [Ne.symm h]),
        List.find?_cons_of_neg _ (by simp [ha, Ne.symm h]), ih]
    · by_cases hai : a.id = i
      · rw [List.map_cons, if_neg ha, List.find?_cons_of_pos _ (by simp [hai]),
          List.find?_cons_of_pos _ (by simp [hai])]
      · rw [List.map_cons, if_neg ha, List.find?_cons_of_neg _ (by simp [hai]),
          List.find?_cons_of_neg _ (by simp [hai]), ih]

theorem find?_replace_self (L : List ScheduledJob) (j : ScheduledJob)
    (h : j.id ∈ L.map (fun k => k.id)) :
    (L.map fun k => if k.id = j.id then j else k).find? (fun k => k.id == j.id)
      = some j := by
  induction L with
  | nil => simp at h
  | cons a tl ih =>
    by_cases ha : a.id = j.id
    · rw [List.map_cons, if_pos ha, List.find?_cons_of_pos _ (by simp)]
    · rw [List.map_cons, if_neg ha, List.find?_cons_of_neg _ (by simp [ha])]
      refine ih ?_
      rcases List.mem_map.mp h with ⟨k, hk, hkid⟩
      rcases List.mem_cons.mp hk with hk | hk
      · exact absurd (hk ▸ hkid) ha
      · exact List.mem_map.mpr ⟨k, hk, hkid⟩

theorem map_id_replace (L : List ScheduledJob) (j : ScheduledJob) :
    (L.map fun k => if k.id = j.id then j else k).map (fun k => k.id)
      = L.map (fun k => k.id) := by
  induction L with
  | nil => rfl
  | cons a tl ih =>
    by_cases ha : a.id = j.id
    · simp [ha, ih]
    · simp [ha, ih]

theorem saveJob_providers (s : Store) (j : ScheduledJob) :
    (s.saveJob j).providers = s.providers := rfl

theorem saveJob_posts (s : Store) (j : ScheduledJob) :
    (s.saveJob j).posts = s.posts := rfl

theorem saveJob_journal (s : Store) (j : ScheduledJob) :
    (s.saveJob j).journal = s.journal ++ [(j.id, j.status)] := rfl

theorem createPost_jobs (s : Store) (p : Post) :
    (s.createPost p).jobs = s.jobs := rfl

theorem createPost_providers (s : Store) (p : Post) :
    (s.createPost p).providers = s.providers := rfl

theorem createPost_journal (s : Store) (p : Post) :
    (s.createPost p).journal = s.journal := rfl

theorem saveJob_ids (s : Store) (j : ScheduledJob) :
    (s.saveJob j).jobs.map (fun k => k.id) = s.jobs.map (fun k => k.id) :=
  map_id_replace s.jobs j

theorem findJob_saveJob_ne (s : Store) (j : ScheduledJob) (i : Nat)
    (h : i ≠ j.id) : (s.saveJob j).findJob i = s.findJob i :=
  find?_replace_ne s.jobs j i h

theorem findJob_saveJob_self (s : Store) (j : ScheduledJob)
    (h : j.id ∈ s.jobs.map (fun k => k.id)) :
    (s.saveJob j).findJob j.id = some j :=
  find?_replace_self s.jobs j h

theorem findJob_createPost (s : Store) (p : Post) (i : Nat) :
    (s.createPost p).findJob i = s.findJob i := rfl

theorem find?_id_of_mem (L : List ScheduledJob) (j : ScheduledJob)
    (hd : (L.map (fun k => k.id)).Nodup) (h : j ∈ L) :
    L.find? (fun k => k.id == j.id) = some j := by
  induction L with
  | nil => simp at h
  | cons a tl ih =>
    have hd' : (∀ x ∈ tl, ¬x.id = a.id) ∧ (tl.map (fun k => k.id)).Nodup := by
      simpa using hd
    by_cases ha : a.id = j.id
    · rw [List.find?_cons_of_pos _ (by simp [ha])]
      rcases List.mem_cons.mp h with h | h
      · rw [h]
      · exact absurd ha.symm (hd'.1 j h)
    · rw [List.find?_cons_of_neg _ (by simp [ha])]
      rcases List.mem_cons.mp h with h | h
      · subst h; exact absurd rfl ha
      · exact ih hd'.2 h

/-- With unique primary keys, reading a member job by its id returns that job. -/
theorem findJob_of_mem (s : Store) (j : ScheduledJob)
    (hd : (s.jobs.map (fun k => k.id)).Nodup) (h : j ∈ s.jobs) :
    s.findJob j.id = some j :=
  find?_id_of_mem s.jobs j hd h

end Database

namespace Providers

open Database

/-- `PublishContent` reads the store only through the credential table. -/
theorem PublishContent_providers_eq (s1 s2 : Store) (h : s1.providers = s2.providers)
    (u n c : String) (pub : Except String String) :
    PublishContent s1 u n c pub = PublishContent s2 u n c pub := by
  unfold PublishContent getProviderConfig Store.findActiveProvider
  rw [h]

/-- A failed publish exchange can never make `PublishContent` succeed. -/
theorem PublishContent_pub_error (s : Store) (u n c e : String) :
    ∃ msg, PublishContent s u n c (Except.error e) = Except.error msg := by
  unfold PublishContent
  cases getProviderConfig s u n with
  | error e1 => exact ⟨"failed to get provider config: " ++ e1, rfl⟩
  | ok cfg =>
    dsimp only
    cases CreateProvider n cfg with
    | error e2 => exact ⟨"failed to create provider: " ++ e2, rfl⟩
    | ok p => exact ⟨"failed to publish content: " ++ e, rfl⟩

end Providers

namespace Scheduler

open Database Providers

theorem markJobFailed_providers (s : Store) (j : ScheduledJob) (msg : String) :
    (markJobFailed s j msg).providers = s.providers := rfl

theorem markJobFailed_findJob_self (s : Store) (j : ScheduledJob) (msg : String)
    (h : j.id ∈ s.jobs.map (fun k => k.id)) :
    (markJobFailed s j msg).findJob j.id =
      some { j with status := Database.JobStatusFailed, errorMsg := msg } :=
  findJob_saveJob_self s _ h

/-- The record the per-job step leaves for the processed job: always
`completed` or `failed`, and necessarily `failed` when the publish exchange
errored. -/
theorem processPublishPostJob_findJob_self (s : Store) (u : String)
    (jx : ScheduledJob) (pn : String) (pub : Except String String) (now : Int)
    (h : jx.id ∈ s.jobs.map (fun k => k.id)) :
    ∃ j', (processPublishPostJob s u jx pn pub now).findJob jx.id = some j' ∧
      (j'.status = Database.JobStatusCompleted ∨ j'.status = Database.JobStatusFailed) ∧
      (∀ e, pub = Except.error e → j'.status = Database.JobStatusFailed) := by
  unfold processPublishPostJob
  by_cases hp : pn = ""
  · rw [if_pos hp]
    exact ⟨_, markJobFailed_findJob_self s jx _ h, Or.inr rfl, fun e _ => rfl⟩
  · rw [if_neg hp]
    cases hpc : PublishContent s u pn jx.payloadData pub with
    | error msg =>
      exact ⟨_, markJobFailed_findJob_self s jx _ h, Or.inr rfl, fun e _ => rfl⟩
    | ok pid =>
      refine ⟨_, findJob_saveJob_self _ _ (by rwa [createPost_jobs]), Or.inl rfl,
        fun e he => ?_⟩
      rcases PublishContent_pub_error s u pn jx.payloadData e with ⟨m, hm⟩
      rw [he, hm] at hpc
      exact absurd hpc (by simp)

theorem processJob_findJob_self (s : Store) (u : String) (j : ScheduledJob)
    (pn : String) (pub : Except String String) (now : Int)
    (h : j.id ∈ s.jobs.map (fun k => k.id)) :
    ∃ j', (processJob s u j pn pub now).findJob j.id = some j' ∧
      (j'.status = Database.JobStatusCompleted ∨ j'.status = Database.JobStatusFailed) ∧
      (∀ e, pub = Except.error e → j'.status = Database.JobStatusFailed) := by
  unfold processJob
  have h1 : j.id ∈
      (s.saveJob { j with status := Database.JobStatusExecuting }).jobs.map
        (fun k => k.id) := by rwa [saveJob_ids]
  by_cases ht : j.jobType = "publish_post"
  · rw [if_pos ht]
    exact processPublishPostJob_findJob_self _ u _ pn pub now h1
  · rw [if_neg ht]
    exact ⟨_, markJobFailed_findJob_self _ _ _ h1, Or.inr rfl, fun e _ => rfl⟩

theorem processJob_findJob_ne (s : Store) (u : String) (j : ScheduledJob)
    (pn : String) (pub : Except String String) (now : Int) (i : Nat)
    (h : i ≠ j.id) :
    (processJob s u j pn pub now).findJob i = s.findJob i := by
  unfold processJob processPublishPostJob markJobFailed
  by_cases ht : j.jobType = "publish_post"
  · rw [if_pos ht]
    by_cases hp : pn = ""
    · rw [if_pos hp, findJob_saveJob_ne, findJob_saveJob_ne] <;> exact h
    · rw [if_neg hp]
      cases PublishContent (s.saveJob { j with status := Database.JobStatusExecuting })
          u pn ({ j with status := Database.JobStatusExecuting } : ScheduledJob).payloadData
          pub with
      | error msg => rw [findJob_saveJob_ne, findJob_saveJob_ne] <;> exact h
      | ok pid =>
        rw [findJob_saveJob_ne, findJob_createPost, findJob_saveJob_ne] <;> exact h
  · rw [if_neg ht, findJob_saveJob_ne, findJob_saveJob_ne] <;> exact h

theorem processJob_ids (s : Store) (u : String) (j : ScheduledJob)
    (pn : String) (pub : Except String String) (now : Int) :
    (processJob s u j pn pub now).jobs.map (fun k => k.id)
      = s.jobs.map (fun k => k.id) := by
  unfold processJob processPublishPostJob markJobFailed
  by_cases ht : j.jobType = "publish_post"
  · rw [if_pos ht]
    by_cases hp : pn = ""
    · rw [if_pos hp, saveJob_ids, saveJob_ids]
    · rw [if_neg hp]
      cases PublishContent (s.saveJob { j with status := Database.JobStatusExecuting })
          u pn ({ j with status := Database.JobStatusExecuting } : ScheduledJob).payloadData
          pub with
      | error msg => rw [saveJob_ids, saveJob_ids]
      | ok pid =>
        rw [saveJob_ids]
        show ((s.saveJob _).createPost _).jobs.map (fun k => k.id) = _
        rw [createPost_jobs, saveJob_ids]
  · rw [if_neg ht, saveJob_ids, saveJob_ids]

theorem foldl_processJob_findJob_ne (L : List ScheduledJob) (s : Store) (u : String)
    (f : ScheduledJob → String) (g : ScheduledJob → Except String String)
    (now : Int) (i : Nat) (h : ∀ d ∈ L, d.id ≠ i) :
    (L.foldl (fun acc d => processJob acc u d (f d) (g d) now) s).findJob i
      = s.findJob i := by
  induction L generalizing s with
  | nil => rfl
  | cons d tl ih =>
    rw [List.foldl_cons, ih _ (fun x hx => h x (List.mem_cons_of_mem _ hx)),
      processJob_findJob_ne _ _ _ _ _ _ _ (Ne.symm (h d (List.mem_cons_self d tl)))]

theorem foldl_processJob_ids (L : List ScheduledJob) (s : Store) (u : String)
    (f : ScheduledJob → String) (g : ScheduledJob → Except String String)
    (now : Int) :
    (L.foldl (fun acc d => processJob acc u d (f d) (g d) now) s).jobs.map
        (fun k => k.id)
      = s.jobs.map (fun k => k.id) := by
  induction L generalizing s with
  | nil => rfl
  | cons d tl ih => rw [List.foldl_cons, ih, processJob_ids]

/-- Processing a list of snapshot jobs with pairwise-distinct ids leaves
every one of them `completed` or `failed`; a job whose publish exchange
errored ends up `failed`. -/
theorem foldl_processJob_terminal (L : List ScheduledJob) (s : Store) (u : String)
    (f : ScheduledJob → String) (g : ScheduledJob → Except String String)
    (now : Int) (hnd : (L.map (fun k => k.id)).Nodup)
    (hin : ∀ d ∈ L, d.id ∈ s.jobs.map (fun k => k.id))
    (j : ScheduledJob) (hj : j ∈ L) :
    ∃ j', (L.foldl (fun acc d => processJob acc u d (f d) (g d) now) s).findJob j.id
        = some j' ∧
      (j'.status = Database.JobStatusCompleted ∨ j'.status = Database.JobStatusFailed) ∧
      (∀ e, g j = Except.error e → j'.status = Database.JobStatusFailed) := by
  induction L generalizing s with
  | nil => simp at hj
  | cons d tl ih =>
    have hnd' : (∀ x ∈ tl, ¬x.id = d.id) ∧ (tl.map (fun k => k.id)).Nodup := by
      simpa using hnd
    rw [List.foldl_cons]
    rcases List.mem_cons.mp hj with hj | hj
    · subst hj
      rcases processJob_findJob_self s u j (f j) (g j) now
          (hin j (List.mem_cons_self j tl)) with ⟨j', h1, h2, h3⟩
      refine ⟨j', ?_, h2, h3⟩
      rw [foldl_processJob_findJob_ne tl _ u f g now j.id
        (fun x hx => hnd'.1 x hx), h1]
    · exact ih (processJob s u d (f d) (g d) now) hnd'.2
        (fun x hx => by
          rw [processJob_ids]; exact hin x (List.mem_cons_of_mem _ hx)) hj

theorem dueJobs_sublist (s : Store) (now : Int) :
    List.Sublist (dueJobs s now) s.jobs :=
  List.filter_sublist s.jobs

theorem dueJobs_status (s : Store) (now : Int) (j : ScheduledJob)
    (h : j ∈ dueJobs s now) : j.status = Database.JobStatusPending := by
  have h2 := (List.mem_filter.mp h).2
  have h3 := (Bool.and_eq_true _ _).mp h2
  exact eq_of_beq h3.1

theorem dueJobs_scheduledAt (s : Store) (now : Int) (j : ScheduledJob)
    (h : j ∈ dueJobs s now) : j.scheduledAt ≤ now := by
  have h2 := (List.mem_filter.mp h).2
  have h3 := (Bool.and_eq_true _ _).mp h2
  exact of_decide_eq_true h3.2

theorem mem_dueJobs (s : Store) (now : Int) (j : ScheduledJob)
    (hmem : j ∈ s.jobs) (hpend : j.status = Database.JobStatusPending)
    (hsch : j.scheduledAt ≤ now) : j ∈ dueJobs s now := by
  refine List.mem_filter.mpr ⟨hmem, ?_⟩
  simp [hpend, hsch]

/-- A job that the due-jobs query does not select is left entirely
unchanged by the tick. -/
theorem processUserJobs_frame_not_due (u : String) (s : Store) (now : Int)
    (net : Nat → Except String String) (j : ScheduledJob)
    (hnd : (s.jobs.map (fun k => k.id)).Nodup) (hmem : j ∈ s.jobs)
    (hnotdue : j ∉ dueJobs s now) :
    (processUserJobs u s now net).findJob j.id = some j := by
  have hne : ∀ d ∈ dueJobs s now, d.id ≠ j.id := by
    intro d hd hid
    exact hnotdue (List.inj_on_of_nodup_map hnd ((dueJobs_sublist s now).subset hd)
      hmem hid ▸ hd)
  unfold processUserJobs
  rw [foldl_processJob_findJob_ne _ _ _ _ _ _ _ hne]
  exact findJob_of_mem s j hnd hmem

theorem processUserJobs_ids (u : String) (s : Store) (now : Int)
    (net : Nat → Except String String) :
    (processUserJobs u s now net).jobs.map (fun k => k.id)
      = s.jobs.map (fun k => k.id) := by
  unfold processUserJobs
  exact foldl_processJob_ids _ _ _ _ _ _

/-- Core of the tick: every selected due job ends the tick `completed` or
`failed`, and `failed` whenever its publish exchange errored. -/
theorem processUserJobs_due_terminal (u : String) (s : Store) (now : Int)
    (net : Nat → Except String String) (j : ScheduledJob)
    (hnd : (s.jobs.map (fun k => k.id)).Nodup) (hdue : j ∈ dueJobs s now) :
    ∃ j', (processUserJobs u s now net).findJob j.id = some j' ∧
      (j'.status = Database.JobStatusCompleted ∨
        j'.status = Database.JobStatusFailed) ∧
      (∀ e, net j.id = Except.error e → j'.status = Database.JobStatusFailed) := by
  have hsub := dueJobs_sublist s now
  have hnd2 : ((dueJobs s now).map (fun k => k.id)).Nodup := (hsub.map _).nodup hnd
  have hin : ∀ d ∈ dueJobs s now, d.id ∈ s.jobs.map (fun k => k.id) :=
    fun d hd => List.mem_map_of_mem _ (hsub.subset hd)
  unfold processUserJobs
  exact foldl_processJob_terminal (dueJobs s now) s u
    (fun d => preloadedProviderName s d) (fun d => net d.id) now hnd2 hin j hdue

/-- The status writes the publish-dispatch step persists for its job. -/
theorem processPublishPostJob_journal (s : Store) (u : String)
    (jx : ScheduledJob) (pn : String) (pub : Except String String) (now : Int) :
    ∃ f, (processPublishPostJob s u jx pn pub now).journal
        = s.journal ++ [(jx.id, f)] ∧
      (f = Database.JobStatusCompleted ∨ f = Database.JobStatusFailed) := by
  unfold processPublishPostJob markJobFailed
  by_cases hp : pn = ""
  · rw [if_pos hp]
    exact ⟨Database.JobStatusFailed, saveJob_journal _ _, Or.inr rfl⟩
  · rw [if_neg hp]
    cases PublishContent s u pn jx.payloadData pub with
    | error msg => exact ⟨Database.JobStatusFailed, saveJob_journal _ _, Or.inr rfl⟩
    | ok pid =>
      exact ⟨Database.JobStatusCompleted,
        by rw [saveJob_journal, createPost_journal], Or.inl rfl⟩

/-- The per-job step persists exactly two status writes for its job:
`executing` first, then `completed` or `failed`. -/
theorem processJob_journal (s : Store) (u : String) (j : ScheduledJob)
    (pn : String) (pub : Except String String) (now : Int) :
    ∃ f, (processJob s u j pn pub now).journal
        = s.journal ++ [(j.id, Database.JobStatusExecuting), (j.id, f)] ∧
      (f = Database.JobStatusCompleted ∨ f = Database.JobStatusFailed) := by
  unfold processJob
  by_cases ht : j.jobType = "publish_post"
  · rw [if_pos ht]
    rcases processPublishPostJob_journal
        (s.saveJob { j with status := Database.JobStatusExecuting }) u
        { j with status := Database.JobStatusExecuting } pn pub now with ⟨f, hf, hor⟩
    refine ⟨f, ?_, hor⟩
    rw [hf, saveJob_journal, List.append_assoc]
    rfl
  · rw [if_neg ht]
    refine ⟨Database.JobStatusFailed, ?_, Or.inr rfl⟩
    unfold markJobFailed
    rw [saveJob_journal, saveJob_journal, List.append_assoc]
    rfl

/-- A job already `completed` or `failed` is not selected by the due query. -/
theorem not_due_of_terminal (s : Store) (now : Int) (j : ScheduledJob)
    (hterm : j.status = Database.JobStatusCompleted ∨
      j.status = Database.JobStatusFailed) : j ∉ dueJobs s now := by
  intro hin
  have hp := dueJobs_status s now j hin
  rcases hterm with h | h
  · exact absurd (h.symm.trans hp) (by decide)
  · exact absurd (h.symm.trans hp) (by decide)

/-- Frame over any sequence of ticks: a terminal job's record survives
untouched, with the job table's id column (hence key uniqueness and
membership) preserved. -/
theorem foldl_ticks_frame_terminal (u : String)
    (ticks : List (Int × (Nat → Except String String))) (s : Store)
    (j : ScheduledJob) (hnd : (s.jobs.map (fun k => k.id)).Nodup)
    (hmem : j ∈ s.jobs)
    (hterm : j.status = Database.JobStatusCompleted ∨
      j.status = Database.JobStatusFailed) :
    (ticks.foldl (fun acc p => processUserJobs u acc p.1 p.2) s).findJob j.id
        = some j ∧
      ((ticks.foldl (fun acc p => processUserJobs u acc p.1 p.2) s).jobs.map
        (fun k => k.id)).Nodup ∧
      j ∈ (ticks.foldl (fun acc p => processUserJobs u acc p.1 p.2) s).jobs := by
  induction ticks generalizing s with
  | nil => exact ⟨findJob_of_mem s j hnd hmem, hnd, hmem⟩
  | cons t ts ih =>
    have h1 : (processUserJobs u s t.1 t.2).findJob j.id = some j :=
      processUserJobs_frame_not_due u s t.1 t.2 j hnd hmem
        (not_due_of_terminal s t.1 j hterm)
    have hnd' : ((processUserJobs u s t.1 t.2).jobs.map (fun k => k.id)).Nodup := by
      rw [processUserJobs_ids]; exact hnd
    have hmem' : j ∈ (processUserJobs u s t.1 t.2).jobs :=
      List.mem_of_find?_eq_some h1
    rw [List.foldl_cons]
    exact ih _ hnd' hmem'

end Scheduler

namespace Providers

open Database

/-- Unknown tags make the factory fail with the unsupported-provider error. -/
theorem CreateProvider_unsupported (t : String) (c : ProviderConfig)
    (h1 : t ≠ "tiktok") (h2 : t ≠ "instagram") (h3 : t ≠ "facebook") :
    CreateProvider t c = Except.error ("unsupported provider type: " ++ t) := by
  unfold CreateProvider ProviderTypeTikTok ProviderTypeInstagram ProviderTypeFacebook
  rw [if_neg h1, if_neg h2, if_neg h3]

/-- Resolving a present active credential always yields a config whose token
fields mirror the stored record. -/
theorem getProviderConfig_of_found (s : Store) (u name : String)
    (p : Database.Provider) (hfound : s.findActiveProvider u name = some p) :
    ∃ cfg, getProviderConfig s u name = Except.ok cfg ∧
      cfg.accessToken = p.config.accessToken ∧
      cfg.refreshToken = p.config.refreshToken ∧
      cfg.expiresAt = p.config.expiresAt := by
  unfold getProviderConfig
  rw [hfound]
  dsimp only
  cases p.config.userInfo with
  | some ui => exact ⟨_, rfl, rfl, rfl, rfl⟩
  | none => exact ⟨_, rfl, rfl, rfl, rfl⟩

/-- Replacing, by primary key, the record that a `find?` lookup returned —
with a record that still satisfies the lookup predicate — makes the same
lookup return the replacement. -/
theorem find?_replace_found (L : List Database.Provider)
    (q q' : Database.Provider) (P : Database.Provider → Bool)
    (hnd : (L.map (fun r => r.id)).Nodup) (hfound : L.find? P = some q)
    (hid : q'.id = q.id) (hP : P q' = true) :
    (L.map fun r => if r.id = q'.id then q' else r).find? P = some q' := by
  induction L with
  | nil => simp at hfound
  | cons a tl ih =>
    have hnd' : (∀ x ∈ tl, ¬x.id = a.id) ∧ (tl.map (fun r => r.id)).Nodup := by
      simpa using hnd
    by_cases hpa : P a = true
    · rw [List.find?_cons_of_pos _ hpa] at hfound
      have haq : a = q := by injection hfound
      rw [List.map_cons, if_pos (by rw [hid, haq]), List.find?_cons_of_pos _ hP]
    · rw [List.find?_cons_of_neg _ hpa] at hfound
      have hqtl : q ∈ tl := List.mem_of_find?_eq_some hfound
      have hane : ¬a.id = q'.id := by
        rw [hid]
        intro he
        exact hnd'.1 q hqtl he.symm
      rw [List.map_cons, if_neg hane, List.find?_cons_of_neg _ hpa]
      exact ih hnd'.2 hfound

/-- `Store.saveProvider` of a field-preserving update of the looked-up
credential record: the lookup then returns the updated record. -/
theorem findActiveProvider_saveProvider (s : Store) (u name : String)
    (q : Database.Provider) (oc : OAuthConfig)
    (hnd : (s.providers.map (fun r => r.id)).Nodup)
    (hfound : s.findActiveProvider u name = some q) :
    (s.saveProvider { q with config := oc }).findActiveProvider u name
      = some { q with config := oc } := by
  have h2 : List.find? (fun p : Database.Provider =>
      p.userID == u && p.name == name && p.isActive) s.providers = some q := hfound
  have hq := List.find?_some h2
  refine find?_replace_found s.providers q { q with config := oc }
    (fun p : Database.Provider => p.userID == u && p.name == name && p.isActive)
    hnd h2 rfl ?_
  dsimp only
  exact hq

end Providers

/-! ## Claim theorems -/

/-- C1: For every job whose status is Pending and whose scheduled_at is at
or before the poll time, after one poll tick that processes the job's
tenant, the job's persisted status is exactly one of Completed or Failed,
never still Pending (assuming the store's reads and writes succeed; job ids
are the table's unique primary keys). -/
theorem tick_due_pending_job_completed_or_failed
    (u : String) (s : Database.Store) (now : Int)
    (net : Nat → Except String String) (j : Database.ScheduledJob)
    (hnd : (s.jobs.map (fun k => k.id)).Nodup) (hmem : j ∈ s.jobs)
    (hpend : j.status = Database.JobStatusPending)
    (hsch : j.scheduledAt ≤ now) :
    ∃ j', (Scheduler.processUserJobs u s now net).findJob j.id = some j' ∧
      (j'.status = Database.JobStatusCompleted ∨
        j'.status = Database.JobStatusFailed) := by
  rcases Scheduler.processUserJobs_due_terminal u s now net j hnd
      (Scheduler.mem_dueJobs s now j hmem hpend hsch) with ⟨j', h1, h2, _⟩
  exact ⟨j', h1, h2⟩

/-- C3: For every job whose scheduled_at is strictly after the poll time, a
poll tick leaves the job's record entirely unchanged (in particular its
status remains Pending); no job is ever executed before its scheduled_at
time. -/
theorem tick_leaves_future_job_record_unchanged
    (u : String) (s : Database.Store) (now : Int)
    (net : Nat → Except String String) (j : Database.ScheduledJob)
    (hnd : (s.jobs.map (fun k => k.id)).Nodup) (hmem : j ∈ s.jobs)
    (hfut : now < j.scheduledAt) :
    (Scheduler.processUserJobs u s now net).findJob j.id = some j := by
  refine Scheduler.processUserJobs_frame_not_due u s now net j hnd hmem ?_
  intro hin
  exact absurd (Scheduler.dueJobs_scheduledAt s now j hin) (not_le.mpr hfut)

/-- C2: Every status change performed by the system follows the monotonic
order Pending → Executing → (Completed or Failed), and a job whose status
is Completed or Failed is never selected for execution again by any later
poll tick: (a) only Pending jobs are ever selected; (b) the persisted write
sequence for a processed job is exactly `executing` then a terminal status;
(c) a terminal job's record survives any sequence of later ticks unchanged
and is selected by none of them. -/
theorem status_transitions_monotonic_and_no_reexecution :
    (∀ (s : Database.Store) (now : Int) (j : Database.ScheduledJob),
      j ∈ Scheduler.dueJobs s now → j.status = Database.JobStatusPending) ∧
    (∀ (s : Database.Store) (u : String) (j : Database.ScheduledJob)
        (pn : String) (pub : Except String String) (now : Int),
      ∃ f, (Scheduler.processJob s u j pn pub now).journal
          = s.journal ++ [(j.id, Database.JobStatusExecuting), (j.id, f)] ∧
        (f = Database.JobStatusCompleted ∨ f = Database.JobStatusFailed)) ∧
    (∀ (u : String) (s : Database.Store) (j : Database.ScheduledJob)
        (ticks : List (Int × (Nat → Except String String))),
      (s.jobs.map (fun k => k.id)).Nodup → j ∈ s.jobs →
      (j.status = Database.JobStatusCompleted ∨
        j.status = Database.JobStatusFailed) →
      (ticks.foldl (fun acc p => Scheduler.processUserJobs u acc p.1 p.2)
          s).findJob j.id = some j ∧
        ∀ now2, j ∉ Scheduler.dueJobs
          (ticks.foldl (fun acc p => Scheduler.processUserJobs u acc p.1 p.2) s)
          now2) := by
  refine ⟨Scheduler.dueJobs_status, Scheduler.processJob_journal, ?_⟩
  intro u s j ticks hnd hmem hterm
  exact ⟨(Scheduler.foldl_ticks_frame_terminal u ticks s j hnd hmem hterm).1,
    fun now2 => Scheduler.not_due_of_terminal _ now2 j hterm⟩

/-- C6: An error while processing one job does not prevent the processing
of the remaining due jobs of the same tenant nor of any other tenant: (a)
within a tenant, when one due job's publish exchange errors, that job is
marked failed and every other due job still reaches a terminal status in
the same tick; (b) every tenant's store is processed to exactly its own
single-tenant tick result, independent of the other tenants. -/
theorem single_job_failure_is_isolated :
    (∀ (u : String) (s : Database.Store) (now : Int)
        (net : Nat → Except String String) (i j : Database.ScheduledJob)
        (e : String),
      (s.jobs.map (fun k => k.id)).Nodup →
      i ∈ Scheduler.dueJobs s now → net i.id = Except.error e →
      j ∈ Scheduler.dueJobs s now → j.id ≠ i.id →
      (∃ j', (Scheduler.processUserJobs u s now net).findJob j.id = some j' ∧
        (j'.status = Database.JobStatusCompleted ∨
          j'.status = Database.JobStatusFailed)) ∧
      (∃ i', (Scheduler.processUserJobs u s now net).findJob i.id = some i' ∧
        i'.status = Database.JobStatusFailed)) ∧
    (∀ (tenants : List (String × Database.Store)) (now : Int)
        (net : String → Nat → Except String String) (u : String)
        (s : Database.Store),
      (u, s) ∈ tenants →
      (u, Scheduler.processUserJobs u s now (net u)) ∈
        Scheduler.processJobs tenants now net) := by
  constructor
  · intro u s now net i j e hnd hidue herr hjdue _hij
    constructor
    · rcases Scheduler.processUserJobs_due_terminal u s now net j hnd hjdue
        with ⟨j', h1, h2, _⟩
      exact ⟨j', h1, h2⟩
    · rcases Scheduler.processUserJobs_due_terminal u s now net i hnd hidue
        with ⟨i', h1, _, h3⟩
      exact ⟨i', h1, h3 e herr⟩
  · intro tenants now net u s hmem
    exact List.mem_map_of_mem _ hmem

/-- C5: For every due job processed in a tick: a job whose job_type is not
`publish_post` is marked Failed with an "Unknown job type" message, no
dispatch attempted (the result is independent of the publish exchange); a
missing provider reference marks the job Failed with "Provider name not
found"; a publish failure marks it Failed with the error text recorded in
error_msg; a publish success creates a Post record and marks the job
Completed. -/
theorem per_job_dispatch_outcomes
    (s : Database.Store) (u : String) (j : Database.ScheduledJob)
    (pn : String) (pub : Except String String) (now : Int)
    (h : j.id ∈ s.jobs.map (fun k => k.id)) :
    (j.jobType ≠ "publish_post" →
      (Scheduler.processJob s u j pn pub now).findJob j.id =
          some { j with
                 status := Database.JobStatusFailed
                 errorMsg := "Unknown job type: " ++ j.jobType } ∧
        (Scheduler.processJob s u j pn pub now).posts = s.posts ∧
        ∀ pub2, Scheduler.processJob s u j pn pub2 now
          = Scheduler.processJob s u j pn pub now) ∧
    (j.jobType = "publish_post" → pn = "" →
      (Scheduler.processJob s u j pn pub now).findJob j.id =
        some { j with
               status := Database.JobStatusFailed
               errorMsg := "Provider name not found" }) ∧
    (∀ e, j.jobType = "publish_post" → pn ≠ "" →
      Providers.PublishContent s u pn j.payloadData pub = Except.error e →
      (Scheduler.processJob s u j pn pub now).findJob j.id =
        some { j with
               status := Database.JobStatusFailed
               errorMsg := "Failed to publish content: " ++ e }) ∧
    (∀ pid, j.jobType = "publish_post" → pn ≠ "" →
      Providers.PublishContent s u pn j.payloadData pub = Except.ok pid →
      (Scheduler.processJob s u j pn pub now).findJob j.id =
          some { j with
                 status := Database.JobStatusCompleted
                 executedAt := some now } ∧
        (Scheduler.processJob s u j pn pub now).posts =
          s.posts ++ [{ content := j.payloadData, userID := u, providerID := j.providerID }]) := by
  have h1 : j.id ∈
      (s.saveJob { j with status := Database.JobStatusExecuting }).jobs.map
        (fun k => k.id) := by rw [Database.saveJob_ids]; exact h
  refine ⟨fun ht => ⟨?_, ?_, ?_⟩, fun ht hp => ?_, fun e ht hp hpc => ?_,
    fun pid ht hp hpc => ?_⟩
  · unfold Scheduler.processJob
    rw [if_neg ht]
    exact Scheduler.markJobFailed_findJob_self _ _ _ h1
  · unfold Scheduler.processJob
    rw [if_neg ht]
    rfl
  · intro pub2
    unfold Scheduler.processJob
    rw [if_neg ht, if_neg ht]
  · unfold Scheduler.processJob Scheduler.processPublishPostJob
    rw [if_pos ht, if_pos hp]
    exact Scheduler.markJobFailed_findJob_self _ _ _ h1
  · have hpc2 : Providers.PublishContent
        (s.saveJob { j with status := Database.JobStatusExecuting }) u pn
        ({ j with status := Database.JobStatusExecuting } :
          Database.ScheduledJob).payloadData pub = Except.error e :=
      (Providers.PublishContent_providers_eq _ s rfl u pn _ pub).trans hpc
    unfold Scheduler.processJob Scheduler.processPublishPostJob
    rw [if_pos ht, if_neg hp, hpc2]
    exact Scheduler.markJobFailed_findJob_self _ _ _ h1
  · have hpc2 : Providers.PublishContent
        (s.saveJob { j with status := Database.JobStatusExecuting }) u pn
        ({ j with status := Database.JobStatusExecuting } :
          Database.ScheduledJob).payloadData pub = Except.ok pid :=
      (Providers.PublishContent_providers_eq _ s rfl u pn _ pub).trans hpc
    constructor
    · unfold Scheduler.processJob Scheduler.processPublishPostJob
      rw [if_pos ht, if_neg hp, hpc2]
      refine Database.findJob_saveJob_self _ _ ?_
      rw [Database.createPost_jobs, Database.saveJob_ids]
      exact h
    · unfold Scheduler.processJob Scheduler.processPublishPostJob
      rw [if_pos ht, if_neg hp, hpc2]
      rfl

/-- C4: `PublishContent`, `GetPostStatus` and `RefreshProviderToken` derive
the factory's provider-type tag from the credential's name (via the
`ProviderType(providerName)` string cast), not from its stored `Type`
field: whenever the looked-up active credential's name is not exactly
`tiktok`, `instagram` or `facebook`, each operation fails with the
unsupported-provider-type error — regardless of the credential's `type`
field. -/
theorem service_derives_provider_type_from_credential_name
    (s : Database.Store) (u name content postID : String)
    (pub stat : Except String String)
    (net : Providers.RefreshNet) (now : Int)
    (p : Database.Provider)
    (hfound : s.findActiveProvider u name = some p)
    (h1 : name ≠ "tiktok") (h2 : name ≠ "instagram") (h3 : name ≠ "facebook") :
    Providers.PublishContent s u name content pub
        = Except.error ("failed to create provider: " ++
          ("unsupported provider type: " ++ name)) ∧
      Providers.GetPostStatus s u name postID stat
        = Except.error ("failed to create provider: " ++
          ("unsupported provider type: " ++ name)) ∧
      Providers.RefreshProviderToken s u name net now
        = Except.error ("failed to create provider: " ++
          ("unsupported provider type: " ++ name)) := by
  obtain ⟨cfg, hcfg, -, -, -⟩ :=
    Providers.getProviderConfig_of_found s u name p hfound
  have hcp := Providers.CreateProvider_unsupported name cfg h1 h2 h3
  refine ⟨?_, ?_, ?_⟩
  · unfold Providers.PublishContent
    rw [hcfg]
    dsimp only
    rw [hcp]
  · unfold Providers.GetPostStatus
    rw [hcfg]
    dsimp only
    rw [hcp]
  · unfold Providers.RefreshProviderToken
    rw [hcfg]
    dsimp only
    rw [hcp]

/-- C7: For every tenant and provider name with an active stored
credential, a successful `RefreshProviderToken` persists the refreshed
credential such that a subsequent read of the same tenant+name returns the
updated access token and expiry (the stored record reflects the token
fields produced by the refresh).  Credential ids are the table's unique
primary keys. -/
theorem refresh_roundtrip_persists_token
    (s : Database.Store) (u name : String)
    (net : Providers.RefreshNet) (now : Int)
    (s2 : Database.Store)
    (hnd : (s.providers.map (fun r => r.id)).Nodup)
    (hok : Providers.RefreshProviderToken s u name net now = Except.ok s2) :
    ∃ c0 p c2, Providers.getProviderConfig s u name = Except.ok c0 ∧
      Providers.CreateProvider name c0 = Except.ok p ∧
      Providers.Provider.refreshToken p net now = Except.ok c2 ∧
      ∃ c', Providers.getProviderConfig s2 u name = Except.ok c' ∧
        c'.accessToken = c2.accessToken ∧ c'.expiresAt = c2.expiresAt := by
  unfold Providers.RefreshProviderToken at hok
  cases hg : Providers.getProviderConfig s u name with
  | error e => rw [hg] at hok; exact Except.noConfusion hok
  | ok c0 =>
    rw [hg] at hok
    dsimp only at hok
    cases hc : Providers.CreateProvider name c0 with
    | error e => rw [hc] at hok; exact Except.noConfusion hok
    | ok p =>
      rw [hc] at hok
      dsimp only at hok
      cases hr : Providers.Provider.refreshToken p net now with
      | error e => rw [hr] at hok; exact Except.noConfusion hok
      | ok c2 =>
        rw [hr] at hok
        dsimp only at hok
        cases hu : Providers.updateProviderConfig s u name c2 with
        | error e => rw [hu] at hok; exact Except.noConfusion hok
        | ok s3 =>
          rw [hu] at hok
          dsimp only at hok
          have hs : s3 = s2 := by injection hok
          subst hs
          refine ⟨c0, p, c2, rfl, hc, hr, ?_⟩
          unfold Providers.updateProviderConfig at hu
          cases hfp : s.findActiveProvider u name with
          | none => rw [hfp] at hu; exact Except.noConfusion hu
          | some q =>
            rw [hfp] at hu
            dsimp only at hu
            have hs3 : s.saveProvider
                { q with config :=
                  { q.config with
                      accessToken := c2.accessToken
                      refreshToken := c2.refreshToken
                      tokenType := c2.tokenType
                      expiresAt := c2.expiresAt
                      scope := c2.scope } } = s3 := by injection hu
            obtain ⟨c', hc', ha, -, he⟩ :=
              Providers.getProviderConfig_of_found s3 u name _
                (hs3 ▸ Providers.findActiveProvider_saveProvider s u name q _
                  hnd hfp)
            exact ⟨c', hc', by rw [ha], by rw [he]⟩

/-- C8 counterexample: the claim "whenever refreshToken returns success,
the bound credential's access token, token type, and expiry have been
mutated to the newly exchanged values" fails on the code: a 200 response
with an empty `access_token` and no error payload makes
`FacebookRefreshToken` return success while leaving the credential
unchanged (its access token is not the exchanged empty string). -/
theorem refresh_token_success_can_leave_credential_unchanged :
    Providers.FacebookRefreshToken
        { accessToken := "old", refreshToken := "r", tokenType := "bearer",
          expiresAt := 0, scope := "", userID := "u" }
        (Providers.HTTPResult.response 200 (Except.ok
          { accessToken := "", tokenType := "new", expiresIn := 100,
            errMessage := "", errType := "", errCode := 0 })) 5
      = Except.ok
        { accessToken := "old", refreshToken := "r", tokenType := "bearer",
          expiresAt := 0, scope := "", userID := "u" } ∧
    ("old" : String) ≠ "" := ⟨rfl, by decide⟩

/-- C8 (amended): for every capability implementation (facebook, instagram,
tiktok), `RefreshToken` fails with the no-refresh-token error when the
bound credential stores no refresh token; and whenever it returns success,
the exchange was a 200 response with no error payload, and either the
response carried a non-empty access token — in which case facebook and
instagram set the bound credential's access token, token type and expiry
to the exchanged values, while tiktok sets its access token, refresh token
and expiry (never the token type) — or the response's access token was
empty and the credential is returned unchanged. -/
theorem refresh_token_failure_and_success_behavior :
    (∀ (cfg : Providers.ProviderConfig)
        (net : Providers.HTTPResult Providers.TokenResponseBody) (now : Int),
      cfg.refreshToken = "" →
      Providers.FacebookRefreshToken cfg net now
        = Except.error "no refresh token available") ∧
    (∀ (cfg : Providers.ProviderConfig)
        (net : Providers.HTTPResult Providers.TokenResponseBody) (now : Int)
        (cfg' : Providers.ProviderConfig),
      Providers.FacebookRefreshToken cfg net now = Except.ok cfg' →
      ∃ r, net = Providers.HTTPResult.response 200 (Except.ok r) ∧
        r.errMessage = "" ∧
        ((r.accessToken ≠ "" ∧ cfg' =
            { cfg with
                accessToken := r.accessToken
                tokenType := r.tokenType
                expiresAt := now + r.expiresIn }) ∨
         (r.accessToken = "" ∧ cfg' = cfg))) ∧
    (∀ (cfg : Providers.ProviderConfig)
        (net : Providers.HTTPResult Providers.TokenResponseBody) (now : Int),
      cfg.refreshToken = "" →
      Providers.InstagramRefreshToken cfg net now
        = Except.error "no refresh token available") ∧
    (∀ (cfg : Providers.ProviderConfig)
        (net : Providers.HTTPResult Providers.TokenResponseBody) (now : Int)
        (cfg' : Providers.ProviderConfig),
      Providers.InstagramRefreshToken cfg net now = Except.ok cfg' →
      ∃ r, net = Providers.HTTPResult.response 200 (Except.ok r) ∧
        r.errMessage = "" ∧
        ((r.accessToken ≠ "" ∧ cfg' =
            { cfg with
                accessToken := r.accessToken
                tokenType := r.tokenType
                expiresAt := now + r.expiresIn }) ∨
         (r.accessToken = "" ∧ cfg' = cfg))) ∧
    (∀ (cfg : Providers.ProviderConfig)
        (net : Providers.HTTPResult Providers.TikTokTokenResponseBody)
        (now : Int),
      cfg.refreshToken = "" →
      Providers.TikTokRefreshToken cfg net now
        = Except.error "no refresh token available") ∧
    (∀ (cfg : Providers.ProviderConfig)
        (net : Providers.HTTPResult Providers.TikTokTokenResponseBody)
        (now : Int) (cfg' : Providers.ProviderConfig),
      Providers.TikTokRefreshToken cfg net now = Except.ok cfg' →
      ∃ r, net = Providers.HTTPResult.response 200 (Except.ok r) ∧
        r.errCode = "" ∧
        ((r.accessToken ≠ "" ∧ cfg' =
            { cfg with
                accessToken := r.accessToken
                refreshToken := r.refreshToken
                expiresAt := now + r.expiresIn }) ∨
         (r.accessToken = "" ∧ cfg' = cfg))) := by
  refine ⟨?_, ?_, ?_, ?_, ?_, ?_⟩
  · intro cfg net now h
    unfold Providers.FacebookRefreshToken
    rw [if_pos h]
  · intro cfg net now cfg' h
    unfold Providers.FacebookRefreshToken at h
    by_cases hr : cfg.refreshToken = ""
    · rw [if_pos hr] at h; exact Except.noConfusion h
    · rw [if_neg hr] at h
      cases net with
      | transportError m => exact Except.noConfusion h
      | response status body =>
        dsimp only at h
        by_cases hs : status ≠ 200
        · rw [if_pos hs] at h; exact Except.noConfusion h
        · rw [if_neg hs] at h
          cases body with
          | error m => exact Except.noConfusion h
          | ok r =>
            dsimp only at h
            by_cases he : r.errMessage ≠ ""
            · rw [if_pos he] at h; exact Except.noConfusion h
            · rw [if_neg he] at h
              by_cases ha : r.accessToken ≠ ""
              · rw [if_pos ha] at h
                exact ⟨r, by rw [not_ne_iff.mp hs], not_ne_iff.mp he,
                  Or.inl ⟨ha, (Except.ok.inj h).symm⟩⟩
              · rw [if_neg ha] at h
                exact ⟨r, by rw [not_ne_iff.mp hs], not_ne_iff.mp he,
                  Or.inr ⟨not_ne_iff.mp ha, (Except.ok.inj h).symm⟩⟩
  · intro cfg net now h
    unfold Providers.InstagramRefreshToken
    rw [if_pos h]
  · intro cfg net now cfg' h
    unfold Providers.InstagramRefreshToken at h
    by_cases hr : cfg.refreshToken = ""
    · rw [if_pos hr] at h; exact Except.noConfusion h
    · rw [if_neg hr] at h
      cases net with
      | transportError m => exact Except.noConfusion h
      | response status body =>
        dsimp only at h
        by_cases hs : status ≠ 200
        · rw [if_pos hs] at h; exact Except.noConfusion h
        · rw [if_neg hs] at h
          cases body with
          | error m => exact Except.noConfusion h
          | ok r =>
            dsimp only at h
            by_cases he : r.errMessage ≠ ""
            · rw [if_pos he] at h; exact Except.noConfusion h
            · rw [if_neg he] at h
              by_cases ha : r.accessToken ≠ ""
              · rw [if_pos ha] at h
                exact ⟨r, by rw [not_ne_iff.mp hs], not_ne_iff.mp he,
                  Or.inl ⟨ha, (Except.ok.inj h).symm⟩⟩
              · rw [if_neg ha] at h
                exact ⟨r, by rw [not_ne_iff.mp hs], not_ne_iff.mp he,
                  Or.inr ⟨not_ne_iff.mp ha, (Except.ok.inj h).symm⟩⟩
  · intro cfg net now h
    unfold Providers.TikTokRefreshToken
    rw [if_pos h]
  · intro cfg net now cfg' h
    unfold Providers.TikTokRefreshToken at h
    by_cases hr : cfg.refreshToken = ""
    · rw [if_pos hr] at h; exact Except.noConfusion h
    · rw [if_neg hr] at h
      cases net with
      | transportError m => exact Except.noConfusion h
      | response status body =>
        dsimp only at h
        by_cases hs : status ≠ 200
        · rw [if_pos hs] at h; exact Except.noConfusion h
        · rw [if_neg hs] at h
          cases body with
          | error m => exact Except.noConfusion h
          | ok r =>
            dsimp only at h
            by_cases he : r.errCode ≠ ""
            · rw [if_pos he] at h; exact Except.noConfusion h
            · rw [if_neg he] at h
              by_cases ha : r.accessToken ≠ ""
              · rw [if_pos ha] at h
                exact ⟨r, by rw [not_ne_iff.mp hs], not_ne_iff.mp he,
                  Or.inl ⟨ha, (Except.ok.inj h).symm⟩⟩
              · rw [if_neg ha] at h
                exact ⟨r, by rw [not_ne_iff.mp hs], not_ne_iff.mp he,
                  Or.inr ⟨not_ne_iff.mp ha, (Except.ok.inj h).symm⟩⟩

/-- C9: `CreateProvider` fails with the unsupported-provider-type error for
every tag outside {tiktok, instagram, facebook}, and for every tag in that
set it succeeds by pure construction (the returned capability instance is
the constructor holding exactly the given credential; `CreateProvider` is a
total pure function of the tag and config, so no network I/O can occur at
construction time). -/
theorem createProvider_tag_behavior (t : String) (c : Providers.ProviderConfig) :
    (t ≠ "tiktok" → t ≠ "instagram" → t ≠ "facebook" →
      Providers.CreateProvider t c
        = Except.error ("unsupported provider type: " ++ t)) ∧
    Providers.CreateProvider Providers.ProviderTypeTikTok c
      = Except.ok (Providers.Provider.tiktok c) ∧
    Providers.CreateProvider Providers.ProviderTypeInstagram c
      = Except.ok (Providers.Provider.instagram c) ∧
    Providers.CreateProvider Providers.ProviderTypeFacebook c
      = Except.ok (Providers.Provider.facebook c) := by
  refine ⟨fun h1 h2 h3 => Providers.CreateProvider_unsupported t c h1 h2 h3,
    rfl, ?_, ?_⟩
  · unfold Providers.CreateProvider
    rw [if_neg (by decide), if_pos rfl]
  · unfold Providers.CreateProvider
    rw [if_neg (by decide), if_neg (by decide), if_pos rfl]

/-! ### Concrete example data used by the witnesses -/

namespace Examples

/-- A stored OAuth credential body. -/
def oauthCfg : Database.OAuthConfig :=
  { accessToken := "tokA", refreshToken := "tokR", tokenType := "Bearer",
    expiresAt := 100, scope := "basic", userInfo := none }

/-- A credential whose free-form instance name is not a provider type tag,
although its stored type field is a supported type. -/
def credNamed : Database.Provider :=
  { id := 7, name := "Personal TikTok", type := "facebook",
    config := oauthCfg, userID := "u1", isActive := true }

/-- A credential named exactly `facebook`. -/
def credFB : Database.Provider :=
  { id := 3, name := "facebook", type := "facebook",
    config := oauthCfg, userID := "u1", isActive := true }

def dueJob : Database.ScheduledJob :=
  { id := 1, jobType := "publish_post", payloadData := "Hello", userID := "u1",
    providerID := 7, scheduledAt := 0, executedAt := none,
    status := "pending", errorMsg := "" }

def dueJob2 : Database.ScheduledJob :=
  { id := 4, jobType := "weird_type", payloadData := "Other", userID := "u1",
    providerID := 7, scheduledAt := -1, executedAt := none,
    status := "pending", errorMsg := "" }

def futureJob : Database.ScheduledJob :=
  { id := 2, jobType := "publish_post", payloadData := "Later", userID := "u1",
    providerID := 7, scheduledAt := 50, executedAt := none,
    status := "pending", errorMsg := "" }

def doneJob : Database.ScheduledJob :=
  { id := 9, jobType := "publish_post", payloadData := "Old", userID := "u1",
    providerID := 7, scheduledAt := -5, executedAt := some (-1),
    status := "completed", errorMsg := "" }

def store0 : Database.Store :=
  { providers := [credNamed], jobs := [dueJob, futureJob, doneJob],
    posts := [], journal := [] }

def store6 : Database.Store :=
  { providers := [credNamed], jobs := [dueJob, dueJob2, futureJob, doneJob],
    posts := [], journal := [] }

def net6 : Nat → Except String String :=
  fun n => if n = 1 then Except.error "boom" else Except.ok "pid"

def storeFB : Database.Store :=
  { providers := [credFB], jobs := [], posts := [], journal := [] }

/-- A successful token-refresh exchange. -/
def netRefreshOK : Providers.HTTPResult Providers.TokenResponseBody :=
  Providers.HTTPResult.response 200 (Except.ok
    { accessToken := "newTok", tokenType := "Bearer", expiresIn := 50,
      errMessage := "", errType := "", errCode := 0 })

/-- A TikTok-shaped successful token-refresh exchange. -/
def netRefreshOKTikTok : Providers.HTTPResult Providers.TikTokTokenResponseBody :=
  Providers.HTTPResult.response 200 (Except.ok
    { accessToken := "newTok", refreshToken := "newRef", expiresIn := 50,
      errCode := "", errMessage := "" })

/-- The bundled refresh-exchange behavior used by the witnesses. -/
def refreshNetOK : Providers.RefreshNet :=
  { graph := netRefreshOK, tiktok := netRefreshOKTikTok }

/-- The store after refreshing the `facebook` credential of `storeFB` at
instant 10 through `refreshNetOK`. -/
def storeFB2 : Database.Store :=
  { providers := [{ id := 3, name := "facebook", type := "facebook", config := { accessToken := "newTok", refreshToken := "tokR", tokenType := "Bearer", expiresAt := 60, scope := "basic", userInfo := none }, userID := "u1", isActive := true }]
    jobs := []
    posts := []
    journal := [] }

/-- An in-memory provider credential. -/
def cfgW : Providers.ProviderConfig :=
  { accessToken := "a0", refreshToken := "r0", tokenType := "t0",
    expiresAt := 7, scope := "sc", userID := "u" }

/-- `cfgW` after a successful exchange through `netRefreshOK` at instant 10. -/
def cfgW2 : Providers.ProviderConfig :=
  { accessToken := "newTok", refreshToken := "r0", tokenType := "Bearer",
    expiresAt := 60, scope := "sc", userID := "u" }

/-- `cfgW` after a successful TikTok exchange through `netRefreshOKTikTok`
at instant 10: access token, refresh token and expiry change, the token
type does not. -/
def cfgWtk : Providers.ProviderConfig :=
  { accessToken := "newTok", refreshToken := "newRef", tokenType := "t0",
    expiresAt := 60, scope := "sc", userID := "u" }

end Examples

/-- C10: For every tenant/name pair with no matching active stored
credential, `IsProviderConfigured` returns `(false, nil)`: absence or
inactivity of the credential is reported as `false`, never as an error
(the error component is `nil` on every input). -/
theorem isProviderConfigured_absence_is_false_not_error :
    (∀ (s : Database.Store) (u n : String),
      s.findActiveProvider u n = none →
      Providers.IsProviderConfigured s u n = (false, none)) ∧
    (∀ (s : Database.Store) (u n : String),
      (Providers.IsProviderConfigured s u n).2 = none) := by
  constructor
  · intro s u n h
    unfold Providers.IsProviderConfigured
    rw [h]
  · intro s u n
    unfold Providers.IsProviderConfigured
    cases s.findActiveProvider u n <;> rfl

/-! ### Witnesses: the claim theorems applied at concrete inputs -/

theorem tick_due_pending_job_completed_or_failed_witness :
    ∃ j', (Scheduler.processUserJobs "u1" Examples.store0 0
        (fun _ => Except.error "down")).findJob 1 = some j' ∧
      (j'.status = Database.JobStatusCompleted ∨
        j'.status = Database.JobStatusFailed) :=
  tick_due_pending_job_completed_or_failed "u1" Examples.store0 0
    (fun _ => Except.error "down") Examples.dueJob (by decide) (by decide) rfl
    (by decide)

theorem tick_leaves_future_job_record_unchanged_witness :
    (Scheduler.processUserJobs "u1" Examples.store0 0
      (fun _ => Except.error "down")).findJob 2 = some Examples.futureJob :=
  tick_leaves_future_job_record_unchanged "u1" Examples.store0 0
    (fun _ => Except.error "down") Examples.futureJob (by decide) (by decide)
    (by decide)

theorem status_transitions_monotonic_and_no_reexecution_witness :
    Examples.doneJob ∉ Scheduler.dueJobs Examples.store0 1000 ∧
    (∃ f, (Scheduler.processJob Examples.store0 "u1" Examples.dueJob ""
          (Except.ok "pid") 0).journal
        = Examples.store0.journal ++
          [(1, Database.JobStatusExecuting), (1, f)] ∧
      (f = Database.JobStatusCompleted ∨ f = Database.JobStatusFailed)) ∧
    ([((0 : Int), fun _ => Except.error "down")].foldl
        (fun acc p => Scheduler.processUserJobs "u1" acc p.1 p.2)
        Examples.store0).findJob 9 = some Examples.doneJob :=
  ⟨fun hin => absurd
      (status_transitions_monotonic_and_no_reexecution.1 _ _ _ hin) (by decide),
   status_transitions_monotonic_and_no_reexecution.2.1 Examples.store0 "u1"
     Examples.dueJob "" (Except.ok "pid") 0,
   (status_transitions_monotonic_and_no_reexecution.2.2 "u1" Examples.store0
     Examples.doneJob [((0 : Int), fun _ => Except.error "down")] (by decide)
     (by decide) (Or.inl rfl)).1⟩

theorem single_job_failure_is_isolated_witness :
    ((∃ j', (Scheduler.processUserJobs "u1" Examples.store6 0
          Examples.net6).findJob 4 = some j' ∧
        (j'.status = Database.JobStatusCompleted ∨
          j'.status = Database.JobStatusFailed)) ∧
      (∃ i', (Scheduler.processUserJobs "u1" Examples.store6 0
          Examples.net6).findJob 1 = some i' ∧
        i'.status = Database.JobStatusFailed)) ∧
    ("u1", Scheduler.processUserJobs "u1" Examples.store6 0 Examples.net6) ∈
      Scheduler.processJobs [("u1", Examples.store6)] 0
        (fun _ => Examples.net6) :=
  ⟨single_job_failure_is_isolated.1 "u1" Examples.store6 0 Examples.net6
      Examples.dueJob Examples.dueJob2 "boom" (by decide) (by decide) rfl
      (by decide) (by decide),
   single_job_failure_is_isolated.2 [("u1", Examples.store6)] 0
     (fun _ => Examples.net6) "u1" Examples.store6 (by decide)⟩

theorem per_job_dispatch_outcomes_witness :
    (Scheduler.processJob Examples.store0 "u1" Examples.dueJob ""
        (Except.ok "pid") 0).findJob 1
      = some { Examples.dueJob with
               status := Database.JobStatusFailed
               errorMsg := "Provider name not found" } :=
  (per_job_dispatch_outcomes Examples.store0 "u1" Examples.dueJob ""
    (Except.ok "pid") 0 (by decide)).2.1 rfl rfl

theorem service_derives_provider_type_from_credential_name_witness :
    Providers.PublishContent Examples.store0 "u1" "Personal TikTok" "Hello"
        (Except.ok "pid")
      = Except.error ("failed to create provider: " ++
        ("unsupported provider type: " ++ "Personal TikTok")) ∧
    Providers.GetPostStatus Examples.store0 "u1" "Personal TikTok" "post9"
        (Except.ok "published")
      = Except.error ("failed to create provider: " ++
        ("unsupported provider type: " ++ "Personal TikTok")) ∧
    Providers.RefreshProviderToken Examples.store0 "u1" "Personal TikTok"
        Examples.refreshNetOK 0
      = Except.error ("failed to create provider: " ++
        ("unsupported provider type: " ++ "Personal TikTok")) :=
  service_derives_provider_type_from_credential_name Examples.store0 "u1"
    "Personal TikTok" "Hello" "post9" (Except.ok "pid") (Except.ok "published")
    Examples.refreshNetOK 0 Examples.credNamed (by decide) (by decide)
    (by decide) (by decide)

theorem refresh_roundtrip_persists_token_witness :
    ∃ c0 p c2, Providers.getProviderConfig Examples.storeFB "u1" "facebook"
        = Except.ok c0 ∧
      Providers.CreateProvider "facebook" c0 = Except.ok p ∧
      Providers.Provider.refreshToken p Examples.refreshNetOK 10
        = Except.ok c2 ∧
      ∃ c', Providers.getProviderConfig Examples.storeFB2 "u1" "facebook"
          = Except.ok c' ∧
        c'.accessToken = c2.accessToken ∧ c'.expiresAt = c2.expiresAt :=
  refresh_roundtrip_persists_token Examples.storeFB "u1" "facebook"
    Examples.refreshNetOK 10 Examples.storeFB2 (by decide) rfl

theorem refresh_token_failure_and_success_behavior_witness :
    Providers.FacebookRefreshToken
        { Examples.cfgW with refreshToken := "" } Examples.netRefreshOK 10
      = Except.error "no refresh token available" ∧
    (∃ r, Examples.netRefreshOK
        = Providers.HTTPResult.response 200 (Except.ok r) ∧
      r.errMessage = "" ∧
      ((r.accessToken ≠ "" ∧ Examples.cfgW2 =
          { Examples.cfgW with
              accessToken := r.accessToken
              tokenType := r.tokenType
              expiresAt := 10 + r.expiresIn }) ∨
       (r.accessToken = "" ∧ Examples.cfgW2 = Examples.cfgW))) ∧
    (∃ r, Examples.netRefreshOKTikTok
        = Providers.HTTPResult.response 200 (Except.ok r) ∧
      r.errCode = "" ∧
      ((r.accessToken ≠ "" ∧ Examples.cfgWtk =
          { Examples.cfgW with
              accessToken := r.accessToken
              refreshToken := r.refreshToken
              expiresAt := 10 + r.expiresIn }) ∨
       (r.accessToken = "" ∧ Examples.cfgWtk = Examples.cfgW))) :=
  ⟨refresh_token_failure_and_success_behavior.1
      { Examples.cfgW with refreshToken := "" } Examples.netRefreshOK 10 rfl,
   refresh_token_failure_and_success_behavior.2.1 Examples.cfgW
     Examples.netRefreshOK 10 Examples.cfgW2 rfl,
   refresh_token_failure_and_success_behavior.2.2.2.2.2 Examples.cfgW
     Examples.netRefreshOKTikTok 10 Examples.cfgWtk rfl⟩

theorem createProvider_tag_behavior_witness :
    Providers.CreateProvider "twitter" Examples.cfgW
      = Except.error ("unsupported provider type: " ++ "twitter") ∧
    Providers.CreateProvider Providers.ProviderTypeFacebook Examples.cfgW
      = Except.ok (Providers.Provider.facebook Examples.cfgW) :=
  ⟨(createProvider_tag_behavior "twitter" Examples.cfgW).1 (by decide)
      (by decide) (by decide),
   (createProvider_tag_behavior Providers.ProviderTypeFacebook
     Examples.cfgW).2.2.2⟩

theorem isProviderConfigured_absence_is_false_not_error_witness :
    Providers.IsProviderConfigured Examples.storeFB "u1" "instagram"
      = (false, none) :=
  isProviderConfigured_absence_is_false_not_error.1 Examples.storeFB "u1"
    "instagram" (by decide)

end SocGo
